import Mathlib

/-!
Verification of the core data model and traversal engine of
`efs_analyzer.py` (ShankarSomu/aws-efs-analyzer).

The Python source is shallowly embedded: the `FileStats` class becomes a
Lean structure with pure `add_file` / `merge` operations (the Python
methods mutate `self`; here they return the updated value), filesystem
interaction becomes an explicit oracle mapping a directory path to the
outcome of listing it, and every OS call a directory entry can make
(`is_symlink`, `is_dir`, `resolve`, `is_file`, `stat`) is recorded as a
field of the embedded entry, with `Option` marking the calls that can
raise.  Machine integers do not matter here: Python integers are
unbounded, sizes are non-negative (`Nat`) and day counts may in principle
be negative (`Int`, from future timestamps).
-/

namespace EfsAnalyzer

/-- The eight last-access categories, in the order of the `categories`
dictionary initialised in `FileStats.__init__`. -/
inductive Category where
  | d0_7
  | d8_14
  | d15_30
  | d31_60
  | d61_90
  | d91_365
  | y1_2
  | y2_plus
deriving DecidableEq, Repr

/-- The `categories` dictionary of `FileStats`: its key set is fixed at
construction (the eight keys above) and never extended, so it is embedded
as a record with one `Nat` field per key. -/
structure Categories where
  d0_7 : Nat
  d8_14 : Nat
  d15_30 : Nat
  d31_60 : Nat
  d61_90 : Nat
  d91_365 : Nat
  y1_2 : Nat
  y2_plus : Nat
deriving DecidableEq, Repr

def Categories.empty : Categories :=
  { d0_7 := 0, d8_14 := 0, d15_30 := 0, d31_60 := 0,
    d61_90 := 0, d91_365 := 0, y1_2 := 0, y2_plus := 0 }

/-- Value of one key of the `categories` dictionary. -/
def Categories.get (c : Categories) : Category → Nat
  | .d0_7 => c.d0_7
  | .d8_14 => c.d8_14
  | .d15_30 => c.d15_30
  | .d31_60 => c.d31_60
  | .d61_90 => c.d61_90
  | .d91_365 => c.d91_365
  | .y1_2 => c.y1_2
  | .y2_plus => c.y2_plus

/-- `self.categories[cat] += size`. -/
def Categories.add (c : Categories) (cat : Category) (size : Nat) : Categories :=
  match cat with
  | .d0_7 => { c with d0_7 := c.d0_7 + size }
  | .d8_14 => { c with d8_14 := c.d8_14 + size }
  | .d15_30 => { c with d15_30 := c.d15_30 + size }
  | .d31_60 => { c with d31_60 := c.d31_60 + size }
  | .d61_90 => { c with d61_90 := c.d61_90 + size }
  | .d91_365 => { c with d91_365 := c.d91_365 + size }
  | .y1_2 => { c with y1_2 := c.y1_2 + size }
  | .y2_plus => { c with y2_plus := c.y2_plus + size }

/-- The merge loop of `FileStats.merge`: both dictionaries always carry
exactly the eight fixed keys, so the loop is key-wise addition. -/
def Categories.mergeWith (c other : Categories) : Categories :=
  { d0_7 := c.d0_7 + other.d0_7
    d8_14 := c.d8_14 + other.d8_14
    d15_30 := c.d15_30 + other.d15_30
    d31_60 := c.d31_60 + other.d31_60
    d61_90 := c.d61_90 + other.d61_90
    d91_365 := c.d91_365 + other.d91_365
    y1_2 := c.y1_2 + other.y1_2
    y2_plus := c.y2_plus + other.y2_plus }

/-- Sum of all dictionary values, `sum(self.categories.values())`. -/
def Categories.total (c : Categories) : Nat :=
  c.d0_7 + c.d8_14 + c.d15_30 + c.d31_60 + c.d61_90 + c.d91_365 + c.y1_2 + c.y2_plus

/-- The `FileStats` accumulator (the spec's Aggregate). -/
structure FileStats where
  categories : Categories
  total_size : Nat
  total_files : Nat
  errors : Nat
deriving DecidableEq, Repr

/-- `FileStats.__init__`. -/
def FileStats.empty : FileStats :=
  { categories := Categories.empty, total_size := 0, total_files := 0, errors := 0 }

/-- The `if last_access_days <= 7 / elif ... / else` chain of
`FileStats.add_file`, factored out as the category selector. -/
def classify (last_access_days : Int) : Category :=
  if last_access_days ≤ 7 then .d0_7
  else if last_access_days ≤ 14 then .d8_14
  else if last_access_days ≤ 30 then .d15_30
  else if last_access_days ≤ 60 then .d31_60
  else if last_access_days ≤ 90 then .d61_90
  else if last_access_days ≤ 365 then .d91_365
  else if last_access_days ≤ 730 then .y1_2
  else .y2_plus

/-- `FileStats.add_file`: bump `total_size` and `total_files`, then add
`size` to the single category the `elif` chain selects. -/
def FileStats.add_file (s : FileStats) (size : Nat) (last_access_days : Int) : FileStats :=
  { s with
    total_size := s.total_size + size
    total_files := s.total_files + 1
    categories := s.categories.add (classify last_access_days) size }

/-- `FileStats.merge` (pure form: returns the merged value instead of
mutating `self`). -/
def FileStats.merge (s other : FileStats) : FileStats :=
  { total_size := s.total_size + other.total_size
    total_files := s.total_files + other.total_files
    errors := s.errors + other.errors
    categories := s.categories.mergeWith other.categories }

/-! ## C1: merge is associative and commutative -/

/-- **C1.** Aggregate merge is associative and commutative: merging
`FileStats` values in either grouping or order yields identical
per-category bytes, total size, total files and error count — here,
identical `FileStats` values. -/
theorem merge_assoc_comm (a b c : FileStats) :
    (a.merge b).merge c = a.merge (b.merge c) ∧ a.merge b = b.merge a := by
  obtain ⟨⟨a1, a2, a3, a4, a5, a6, a7, a8⟩, as, af, ae⟩ := a
  obtain ⟨⟨b1, b2, b3, b4, b5, b6, b7, b8⟩, bs, bf, be⟩ := b
  obtain ⟨⟨c1, c2, c3, c4, c5, c6, c7, c8⟩, cs, cf, ce⟩ := c
  refine ⟨?_, ?_⟩ <;>
    simp only [FileStats.merge, Categories.mergeWith, FileStats.mk.injEq,
      Categories.mk.injEq] <;> omega

/-! ## C7: the classifier buckets partition the non-negative days -/

/-- The bucket table exactly as the spec states it: 0–7, 8–14, 15–30,
31–60, 61–90, 91–365, 366–730, and strictly above 730 (with each
boundary day belonging to the lower bucket). -/
def inBucket (cat : Category) (d : Int) : Bool :=
  match cat with
  | .d0_7 => 0 ≤ d && d ≤ 7
  | .d8_14 => 8 ≤ d && d ≤ 14
  | .d15_30 => 15 ≤ d && d ≤ 30
  | .d31_60 => 31 ≤ d && d ≤ 60
  | .d61_90 => 61 ≤ d && d ≤ 90
  | .d91_365 => 91 ≤ d && d ≤ 365
  | .y1_2 => 366 ≤ d && d ≤ 730
  | .y2_plus => 730 < d

/-- **C7.** For every non-negative day count the classifier assigns
exactly one category, and that category is exactly the bucket of the
spec's boundary table: the buckets are contiguous, non-overlapping and
exhaustive over `[0, ∞)`, and each boundary day falls in the lower
bucket. -/
theorem classify_unique_bucket (d : Int) (hd : 0 ≤ d) :
    inBucket (classify d) d = true ∧
      ∀ cat : Category, inBucket cat d = true → cat = classify d := by
  constructor
  · simp only [classify]
    split_ifs with h1 h2 h3 h4 h5 h6 h7 <;> simp [inBucket] <;> omega
  · intro cat hcat
    cases cat <;> simp only [inBucket, Bool.and_eq_true, decide_eq_true_eq] at hcat <;>
      simp only [classify] <;> split_ifs <;> first | rfl | omega

/-- Witness for C7: day 14 lies in exactly the 8–14 bucket. -/
theorem classify_unique_bucket_witness :
    (0 : Int) ≤ 14 ∧
      (inBucket (classify 14) 14 = true ∧
        ∀ cat : Category, inBucket cat 14 = true → cat = classify 14) :=
  ⟨by decide, classify_unique_bucket 14 (by decide)⟩

/-! ## C8: totalBytes equals the sum of perCategoryBytes -/

/-- Aggregates reachable from the empty aggregate by any sequence of
`add_file` and `merge` operations. -/
inductive ReachableStats : FileStats → Prop where
  | empty : ReachableStats FileStats.empty
  | add_file (s : FileStats) (size : Nat) (days : Int) :
      ReachableStats s → ReachableStats (s.add_file size days)
  | merge (a b : FileStats) :
      ReachableStats a → ReachableStats b → ReachableStats (a.merge b)

lemma Categories.total_add (c : Categories) (cat : Category) (size : Nat) :
    (c.add cat size).total = c.total + size := by
  cases cat <;> simp [Categories.add, Categories.total] <;> omega

lemma Categories.total_mergeWith (c other : Categories) :
    (c.mergeWith other).total = c.total + other.total := by
  simp [Categories.mergeWith, Categories.total]; omega

/-- **C8.** Every aggregate reachable from the empty aggregate by
`add_file` and `merge` satisfies `total_size = sum(categories.values())`:
`add_file` adds the size to exactly one category and to `total_size`, and
`merge` preserves the equation. -/
theorem reachable_total_size_eq_sum (s : FileStats)
    (h : ReachableStats s) : s.total_size = s.categories.total := by
  induction h with
  | empty => rfl
  | add_file s size days _ ih =>
      simp [FileStats.add_file, Categories.total_add, ih]
  | merge a b _ _ iha ihb =>
      simp [FileStats.merge, Categories.total_mergeWith, iha, ihb]

/-- Witness for C8 at a concrete reachable aggregate. -/
theorem reachable_total_size_eq_sum_witness :
    ((FileStats.empty.add_file 5 3).merge (FileStats.empty.add_file 7 400)).total_size
      = ((FileStats.empty.add_file 5 3).merge (FileStats.empty.add_file 7 400)).categories.total :=
  reachable_total_size_eq_sum _
    (ReachableStats.merge _ _
      (ReachableStats.add_file _ 5 3 ReachableStats.empty)
      (ReachableStats.add_file _ 7 400 ReachableStats.empty))

/-! ## Paths and `is_system_directory` -/

/-- `str.startswith(p)`: raw character-level string-prefix test. -/
def startsWithStr (s p : String) : Bool := p.data.isPrefixOf s.data

/-- Split a character list on `/` (helper for `Path(...).parts`). -/
def splitSlashAux : List Char → List Char → List (List Char)
  | [], acc => [acc.reverse]
  | c :: rest, acc =>
      if c = '/' then acc.reverse :: splitSlashAux rest []
      else splitSlashAux rest (c :: acc)

/-- `Path(path_str).parts` for ordinary absolute or relative paths: an
absolute path contributes a leading `/` component, then the non-empty
segments between slashes. -/
def pathParts (s : String) : List String :=
  let segs := ((splitSlashAux s.data []).filter (fun cs => !cs.isEmpty)).map
    (fun cs => String.mk cs)
  if startsWithStr s "/" then "/" :: segs else segs

/-- `"str".strip(c)`: drop the character from both ends. -/
def stripChar (c : Char) (s : String) : String :=
  String.mk (((s.data.dropWhile (· = c)).reverse.dropWhile (· = c)).reverse)

/-- The hard-coded `common_system_dirs` list inside `is_system_directory`. -/
def common_system_dirs : List String :=
  ["/proc", "/sys", "/dev", "/run", "/tmp", "/var/run"]

/-- `is_system_directory(path, system_dirs)`: a raw `startswith` test
against every configured system directory, followed by a membership test
of each stripped common name among the path's components. -/
def is_system_directory (path : String) (system_dirs : List String) : Bool :=
  system_dirs.any (fun sd => startsWithStr path sd) ||
    common_system_dirs.any (fun sd => (pathParts path).contains (stripChar '/' sd))

/-- The relation the claim describes: `q` equals `p` or lies under `p` at
a path-component boundary (the component list of `p` is a prefix of that
of `q`).  This definition follows the spec's words, for comparison with
`is_system_directory` above. -/
def underPathComponents (p q : String) : Bool :=
  (pathParts p).isPrefixOf (pathParts q)

/-- **C9 (failing input).** The exclusion check is raw string-prefix
matching, not component-boundary containment: with `/proc` configured,
the sibling `/procfoo` is excluded (`is_system_directory` returns `true`)
even though it is neither equal to `/proc` nor under it at a component
boundary — the very false positive the claim rules out. -/
theorem is_system_directory_false_positive :
    is_system_directory "/procfoo" ["/proc"] = true ∧
      underPathComponents "/proc" "/procfoo" = false ∧
      ("/procfoo" : String) ≠ "/proc" := by
  refine ⟨rfl, rfl, by decide⟩

/-! ## The filesystem model and `scan_directory`

A directory entry is embedded together with the outcome of every OS call
`scan_directory` makes on it.  `Option` marks the calls whose failure the
source catches: `resolveRes = none` is the `FileNotFoundError` /
`PermissionError` of `entry_path.resolve()`, `typeRes = none` is an
`OSError` while determining the entry type, and `statRes = none` is a
failure of `entry.stat(...)`.  `typeRes` records the combined outcome of
the `entry.is_file(follow_symlinks=...)` / `entry.is_dir(...)` pair,
while `isDirTop` is the plain `entry.is_dir()` used by the exclusion
check. -/

inductive EntryKind where
  | file
  | dir
  | other
deriving DecidableEq, Repr

structure Entry where
  name : String
  path : String
  isSymlink : Bool
  isDirTop : Bool
  resolveRes : Option String
  typeRes : Option EntryKind
  statRes : Option (Nat × Int)
deriving Repr

/-- Outcome of `list(os.scandir(directory))`: a listing, a
`PermissionError`/`FileNotFoundError` (caught next to the call, counted
as one error), or any other exception (caught only by the blanket
`except Exception` at the end of the function body). -/
inductive ListOutcome where
  | ok (entries : List Entry)
  | errCaught
  | errUncaught
deriving Repr

/-- The filesystem oracle: what listing each directory path yields. -/
def FS : Type := String → ListOutcome

/-- `{ s with errors := s.errors + 1 }` (`stats.errors += 1`). -/
def bumpErr (s : FileStats) : FileStats := { s with errors := s.errors + 1 }

/-- One iteration of the `for entry in dir_entries` loop.  The state is
`(stats, subdirs, visited_paths)`; `visited_paths` is the mutable set of
resolved paths, embedded as a list. -/
def processEntry (exclude system_dirs : List String) (follow_symlinks : Bool)
    (st : FileStats × List String × List String) (e : Entry) :
    FileStats × List String × List String :=
  -- skip excluded directories
  if e.isDirTop && (exclude.contains e.name || is_system_directory e.path system_dirs) then st
  -- skip symlinks when not following them
  else if e.isSymlink && !follow_symlinks then st
  else
    match e.resolveRes with
    | none => (bumpErr st.1, st.2.1, st.2.2)
    | some real_path =>
      -- loop guard: skip an already-visited resolved path, else record it
      if st.2.2.contains real_path then st
      else
        let visited := real_path :: st.2.2
        match e.typeRes with
        | none => (bumpErr st.1, st.2.1, visited)
        | some .file =>
          match e.statRes with
          | none => (bumpErr st.1, st.2.1, visited)
          | some sz => (st.1.add_file sz.1 sz.2, st.2.1, visited)
        | some .dir =>
          if is_system_directory e.path system_dirs then (st.1, st.2.1, visited)
          else (st.1, st.2.1 ++ [e.path], visited)
        | some .other => (st.1, st.2.1, visited)

/-- The non-recursive part of `scan_directory`: the system-directory
bail-out, the listing, and the entry loop.  Returns
`(stats, subdirs, visited_paths)`. -/
def scanHere (fs : FS) (exclude : List String) (follow_symlinks : Bool)
    (system_dirs : List String) (directory : String) (visited : List String) :
    FileStats × List String × List String :=
  if is_system_directory directory system_dirs then (FileStats.empty, [], visited)
  else
    match fs directory with
    | .errCaught => (bumpErr FileStats.empty, [], visited)
    | .errUncaught => (FileStats.empty, [], visited)
    | .ok entries =>
        entries.foldl (processEntry exclude system_dirs follow_symlinks)
          (FileStats.empty, [], visited)

/-- `scan_directory`, with the recursion measured by
`gas = max_depth - current_depth`: the source recurses exactly when
`current_depth < max_depth`, i.e. when `gas > 0`, passing
`current_depth + 1`, i.e. `gas - 1`.  The visited set is threaded through
the recursive calls, as the shared mutable `visited_paths` set is in the
source.  Returns `(stats, visited_paths)`. -/
def scanDirGas (fs : FS) (exclude : List String) (follow_symlinks : Bool)
    (system_dirs : List String) : Nat → String → List String → FileStats × List String
  | 0, directory, visited =>
      let r := scanHere fs exclude follow_symlinks system_dirs directory visited
      (r.1, r.2.2)
  | gas + 1, directory, visited =>
      let r := scanHere fs exclude follow_symlinks system_dirs directory visited
      r.2.1.foldl
        (fun acc subdir =>
          let s := scanDirGas fs exclude follow_symlinks system_dirs gas subdir acc.2
          (acc.1.merge s.1, s.2))
        (r.1, r.2.2)

/-- `scan_directory(directory, exclude_dirs, current_time, max_depth,
current_depth, follow_symlinks, system_dirs, visited_paths)`.  The
`current_time` argument is elided: it only feeds
`get_last_access_days`, whose result is already recorded in each entry's
`statRes`. -/
def scan_directory (fs : FS) (directory : String) (exclude : List String)
    (max_depth current_depth : Nat) (follow_symlinks : Bool)
    (system_dirs : List String) (visited : List String) : FileStats × List String :=
  scanDirGas fs exclude follow_symlinks system_dirs (max_depth - current_depth)
    directory visited

/-- The top-level subdirectory listing of `parallel_scan_directory`
(lines 390-397): directory entries not excluded by name and not system
directories; any listing exception leaves the list empty. -/
def topSubdirs (fs : FS) (directory : String) (exclude : List String)
    (system_dirs : List String) : List String :=
  match fs directory with
  | .ok entries =>
      (entries.filter (fun e =>
        e.isDirTop && !exclude.contains e.name &&
          !is_system_directory e.path system_dirs)).map (fun e => e.path)
  | _ => []

/-- `parallel_scan_directory`.  The file-count estimation and progress
bar affect no returned value and are elided.  `workerFails sd = true`
models the catastrophic failure of the worker assigned to `sd`
(`future.result()` raising): the source then only logs, merging nothing.
Completion order is immaterial to the fold because merge is commutative
and associative, so the `as_completed` order is modelled as list order. -/
def parallel_scan_directory (fs : FS) (directory : String) (exclude : List String)
    (max_depth parallel_workers : Nat) (follow_symlinks : Bool)
    (system_dirs : List String) (workerFails : String → Bool) : FileStats :=
  let subdirs := topSubdirs fs directory exclude system_dirs
  if subdirs.isEmpty || parallel_workers ≤ 1 then
    (scan_directory fs directory exclude max_depth 0 follow_symlinks system_dirs []).1
  else
    subdirs.foldl
      (fun acc subdir =>
        if workerFails subdir then acc
        else acc.merge
          (scan_directory fs subdir exclude max_depth 1 follow_symlinks system_dirs []).1)
      FileStats.empty

/-! ## Concrete filesystem fixtures -/

/-- A plain regular-file entry whose OS calls all succeed. -/
def fileEntry (name path : String) (size : Nat) (days : Int) : Entry :=
  { name := name, path := path, isSymlink := false, isDirTop := false,
    resolveRes := some path, typeRes := some .file, statRes := some (size, days) }

/-- A plain subdirectory entry whose OS calls all succeed. -/
def dirEntry (name path : String) : Entry :=
  { name := name, path := path, isSymlink := false, isDirTop := true,
    resolveRes := some path, typeRes := some .dir, statRes := none }

/-- One directory `/d` holding a single 5-byte file. -/
def fs0 : FS := fun d =>
  if d = "/d" then .ok [fileEntry "f" "/d/f" 5 1] else .ok []

/-- Root `/r` with one direct 10-byte file and two subdirectories, each
holding one file (20 and 30 bytes). -/
def fs1 : FS := fun d =>
  if d = "/r" then .ok [fileEntry "f" "/r/f" 10 1, dirEntry "a" "/r/a", dirEntry "b" "/r/b"]
  else if d = "/r/a" then .ok [fileEntry "g" "/r/a/g" 20 1]
  else if d = "/r/b" then .ok [fileEntry "h" "/r/b/h" 30 1]
  else .ok []

/-- Root `/r2` with one direct 10-byte file and a single subdirectory
holding one 20-byte file. -/
def fs2 : FS := fun d =>
  if d = "/r2" then .ok [fileEntry "f" "/r2/f" 10 1, dirEntry "a" "/r2/a"]
  else if d = "/r2/a" then .ok [fileEntry "g" "/r2/a/g" 20 2]
  else .ok []

/-- A directory whose listing raises an exception other than
`PermissionError`/`FileNotFoundError`. -/
def fsU : FS := fun d => if d = "/u" then .errUncaught else .ok []

/-- A directory whose listing raises `PermissionError`/`FileNotFoundError`. -/
def fsC : FS := fun d => if d = "/c" then .errCaught else .ok []

/-- A root with no subdirectories at all. -/
def fsE : FS := fun _ => .ok []

/-! ## C2: the depth cutoff -/

/-- **C2 (counterexample).** The cutoff is not hard: called at depth `1`
with `maxDepth = 0` (depth strictly greater than the limit), the walker
does not return an empty aggregate — it still lists the directory and
counts its file. -/
theorem depth_cutoff_not_hard :
    (0 : Nat) < 1 ∧
      (scan_directory fs0 "/d" [] 0 1 false [] []).1 ≠ FileStats.empty ∧
      (scan_directory fs0 "/d" [] 0 1 false [] []).1.total_files = 1 := by
  refine ⟨by decide, by decide, rfl⟩

/-- **C2 (amended).** The depth cutoff is soft, not hard: for any depth
with `maxDepth ≤ depth` (in particular any depth beyond the limit) the
walker still scans and aggregates the directory's own entries but
performs no recursion, and for `depth < maxDepth` it additionally
recurses into the retained subdirectories at `depth + 1`, merging each
child aggregate.  Hence directories strictly beyond the cutoff are never
listed through recursion, while the entries of a directory at the cutoff
still contribute. -/
theorem depth_cutoff_soft :
    ∀ (fs : FS) (dir : String) (ex : List String) (md cd : Nat) (fl : Bool)
      (sys vis : List String),
      (md ≤ cd → scan_directory fs dir ex md cd fl sys vis =
        ((scanHere fs ex fl sys dir vis).1, (scanHere fs ex fl sys dir vis).2.2)) ∧
      (cd < md → scan_directory fs dir ex md cd fl sys vis =
        (scanHere fs ex fl sys dir vis).2.1.foldl
          (fun acc sd =>
            (acc.1.merge (scan_directory fs sd ex md (cd + 1) fl sys acc.2).1,
             (scan_directory fs sd ex md (cd + 1) fl sys acc.2).2))
          ((scanHere fs ex fl sys dir vis).1, (scanHere fs ex fl sys dir vis).2.2)) := by
  intro fs dir ex md cd fl sys vis
  constructor
  · intro h
    have h0 : md - cd = 0 := Nat.sub_eq_zero_of_le h
    simp only [scan_directory, h0, scanDirGas]
  · intro h
    obtain ⟨g, hg⟩ : ∃ g, md - cd = g + 1 := ⟨md - cd - 1, by omega⟩
    have hg2 : md - (cd + 1) = g := by omega
    simp only [scan_directory, hg, hg2, scanDirGas]

/-- Witness for C2 (amended): a walk already past the limit reduces to
the entry scan of its own directory. -/
theorem depth_cutoff_soft_witness :
    scan_directory fs0 "/d" [] 0 1 false [] [] =
      ((scanHere fs0 [] false [] "/d" []).1, (scanHere fs0 [] false [] "/d" []).2.2) :=
  (depth_cutoff_soft fs0 "/d" [] 0 1 false [] []).1 (by decide)

/-! ## C3: the walker's error contract -/

/-- **C3 (counterexample).** A listing failure does not always increment
`errors`: when `list(os.scandir(...))` raises an exception other than
`PermissionError`/`FileNotFoundError`, only the blanket
`except Exception` at the end of the body catches it, which logs without
touching `errors` — the walker returns an aggregate with `errors = 0`
although the directory could not be listed. -/
theorem listing_error_not_always_counted :
    fsU "/u" = .errUncaught ∧
      (scan_directory fsU "/u" [] 5 0 false [] []).1.errors = 0 :=
  ⟨rfl, rfl⟩

/-- **C3 (amended).** The walker is a total function of its inputs (it
always returns an aggregate; the embedding is a Lean `def`, so totality
is by construction) and, for a non-system directory: a listing failure
with `PermissionError`/`FileNotFoundError` increments `errors` by one
and returns the partial aggregate; any other listing exception returns
the partial aggregate with `errors` unchanged; and any exception at one
of the three per-entry metadata points — resolution, type determination,
`stat` — increments `errors` by exactly one and the `foldl` over the
remaining entries continues, so no single bad entry aborts its
siblings. -/
theorem walker_error_contract :
    ∀ (fs : FS) (dir : String) (ex : List String) (md cd : Nat) (fl : Bool)
      (sys vis : List String),
      (is_system_directory dir sys = false → fs dir = .errCaught →
        scan_directory fs dir ex md cd fl sys vis = (bumpErr FileStats.empty, vis)) ∧
      (is_system_directory dir sys = false → fs dir = .errUncaught →
        scan_directory fs dir ex md cd fl sys vis = (FileStats.empty, vis)) ∧
      (∀ (st : FileStats × List String × List String) (e : Entry),
        (e.isDirTop && (ex.contains e.name || is_system_directory e.path sys)) = false →
        (e.isSymlink && !fl) = false →
        e.resolveRes = none →
        processEntry ex sys fl st e = (bumpErr st.1, st.2.1, st.2.2)) ∧
      (∀ (st : FileStats × List String × List String) (e : Entry) (r : String),
        (e.isDirTop && (ex.contains e.name || is_system_directory e.path sys)) = false →
        (e.isSymlink && !fl) = false →
        e.resolveRes = some r → st.2.2.contains r = false →
        e.typeRes = none →
        processEntry ex sys fl st e = (bumpErr st.1, st.2.1, r :: st.2.2)) ∧
      (∀ (st : FileStats × List String × List String) (e : Entry) (r : String),
        (e.isDirTop && (ex.contains e.name || is_system_directory e.path sys)) = false →
        (e.isSymlink && !fl) = false →
        e.resolveRes = some r → st.2.2.contains r = false →
        e.typeRes = some .file → e.statRes = none →
        processEntry ex sys fl st e = (bumpErr st.1, st.2.1, r :: st.2.2)) := by
  intro fs dir ex md cd fl sys vis
  refine ⟨?_, ?_, ?_, ?_, ?_⟩
  · intro hsys hfs
    cases h : md - cd <;>
      simp only [scan_directory, h, scanDirGas, scanHere, hsys, hfs, Bool.false_eq_true,
        if_false, List.foldl_nil]
  · intro hsys hfs
    cases h : md - cd <;>
      simp only [scan_directory, h, scanDirGas, scanHere, hsys, hfs, Bool.false_eq_true,
        if_false, List.foldl_nil]
  · intro st e h1 h2 h3
    simp only [processEntry, h1, h2, h3, Bool.false_eq_true, if_false]
  · intro st e r h1 h2 h3 h4 h5
    simp only [processEntry, h1, h2, h3, h4, h5, Bool.false_eq_true, if_false]
  · intro st e r h1 h2 h3 h4 h5 h6
    simp only [processEntry, h1, h2, h3, h4, h5, h6, Bool.false_eq_true, if_false]

/-- Witness for C3 (amended): a caught listing failure on a concrete
directory yields exactly one error and the partial (empty) aggregate. -/
theorem walker_error_contract_witness :
    scan_directory fsC "/c" [] 5 0 false [] [] = (bumpErr FileStats.empty, []) :=
  (walker_error_contract fsC "/c" [] 5 0 false [] []).1 rfl rfl

/-! ## C4: parallel mode drops the root's direct files -/

/-- **C4 (failing input).** In parallel mode the scheduler submits one
worker per top-level subdirectory and merges only the worker results: on
a root with one direct 10-byte file and two subdirectories (20 and 30
bytes), the parallel scan returns 2 files and 50 bytes, while the
sequential walk of the same tree returns 3 files and 60 bytes — the
root's direct file is silently dropped, contradicting the claim (and the
sequential mode's own behaviour). -/
theorem parallel_drops_root_files :
    (parallel_scan_directory fs1 "/r" [] 5 2 false [] (fun _ => false)).total_files = 2 ∧
      (parallel_scan_directory fs1 "/r" [] 5 2 false [] (fun _ => false)).total_size = 50 ∧
      (scan_directory fs1 "/r" [] 5 0 false [] []).1.total_files = 3 ∧
      (scan_directory fs1 "/r" [] 5 0 false [] []).1.total_size = 60 :=
  ⟨rfl, rfl, rfl, rfl⟩

/-! ## C5: the fallback condition of the scheduler -/

/-- **C5 (counterexample).** With one eligible top-level subdirectory
and `workerCount = 2` — fewer children than workers — the claim requires
a fallback to the single sequential walker; the code instead takes the
parallel path (`not subdirs or parallel <= 1` is false) and produces a
different aggregate: 1 file against the sequential walker's 2. -/
theorem fallback_condition_cex :
    (topSubdirs fs2 "/r2" [] []).length = 1 ∧ (1 : Nat) < 2 ∧
      (parallel_scan_directory fs2 "/r2" [] 5 2 false [] (fun _ => false)).total_files = 1 ∧
      (scan_directory fs2 "/r2" [] 5 0 false [] []).1.total_files = 2 :=
  ⟨rfl, by decide, rfl, rfl⟩

lemma parallel_scan_fallback_branch (fs : FS) (dir : String) (ex : List String)
    (md p : Nat) (fl : Bool) (sys : List String) (wf : String → Bool)
    (h : topSubdirs fs dir ex sys = [] ∨ p ≤ 1) :
    parallel_scan_directory fs dir ex md p fl sys wf =
      (scan_directory fs dir ex md 0 fl sys []).1 := by
  have hc : ((topSubdirs fs dir ex sys).isEmpty || decide (p ≤ 1)) = true := by
    rcases h with h | h <;> simp [h]
  simp only [parallel_scan_directory, hc, if_true]

lemma parallel_scan_parallel_branch (fs : FS) (dir : String) (ex : List String)
    (md p : Nat) (fl : Bool) (sys : List String) (wf : String → Bool)
    (h1 : topSubdirs fs dir ex sys ≠ []) (h2 : 1 < p) :
    parallel_scan_directory fs dir ex md p fl sys wf =
      (topSubdirs fs dir ex sys).foldl
        (fun acc sd => if wf sd then acc
          else acc.merge (scan_directory fs sd ex md 1 fl sys []).1)
        FileStats.empty := by
  have hc : ((topSubdirs fs dir ex sys).isEmpty || decide (p ≤ 1)) = false := by
    simp [List.isEmpty_iff, h1]
    omega
  simp only [parallel_scan_directory, hc, Bool.false_eq_true, if_false]

/-- **C5 (amended).** The scheduler falls back to a single sequential
walker over the whole tree (root at depth 0) exactly when the root has
no eligible child subdirectory or `workerCount ≤ 1`; whenever there is
at least one eligible child and `workerCount > 1` it dispatches one
worker per child subdirectory at depth 1 (with `min(workerCount,
numChildren)` pool slots) and merges the surviving worker results — even
when the children are fewer than `workerCount`. -/
theorem fallback_iff_no_children_or_one_worker :
    ∀ (fs : FS) (dir : String) (ex : List String) (md p : Nat) (fl : Bool)
      (sys : List String) (wf : String → Bool),
      (topSubdirs fs dir ex sys = [] ∨ p ≤ 1 →
        parallel_scan_directory fs dir ex md p fl sys wf =
          (scan_directory fs dir ex md 0 fl sys []).1) ∧
      (topSubdirs fs dir ex sys ≠ [] → 1 < p →
        parallel_scan_directory fs dir ex md p fl sys wf =
          (topSubdirs fs dir ex sys).foldl
            (fun acc sd => if wf sd then acc
              else acc.merge (scan_directory fs sd ex md 1 fl sys []).1)
            FileStats.empty) := by
  intro fs dir ex md p fl sys wf
  exact ⟨parallel_scan_fallback_branch fs dir ex md p fl sys wf,
    parallel_scan_parallel_branch fs dir ex md p fl sys wf⟩

/-- Witness for C5 (amended): a root with no subdirectories falls back
to the sequential walker even with 4 workers. -/
theorem fallback_iff_witness :
    parallel_scan_directory fsE "/e" [] 3 4 false [] (fun _ => false) =
      (scan_directory fsE "/e" [] 3 0 false [] []).1 :=
  (fallback_iff_no_children_or_one_worker fsE "/e" [] 3 4 false [] (fun _ => false)).1
    (Or.inl rfl)

/-! ## C6: a catastrophically failing worker -/

/-- **C6 (counterexample).** A worker whose task dies contributes
nothing at all — not an empty aggregate plus one error: with the worker
for `/r/a` failing, the merged result has `errors = 0` (the claim
requires exactly one error from the failed worker) and consists solely
of the surviving worker's statistics. -/
theorem worker_failure_uncounted :
    (parallel_scan_directory fs1 "/r" [] 5 2 false [] (fun sd => sd == "/r/a")).errors = 0 ∧
      (parallel_scan_directory fs1 "/r" [] 5 2 false [] (fun sd => sd == "/r/a")).total_files = 1 ∧
      (parallel_scan_directory fs1 "/r" [] 5 2 false [] (fun sd => sd == "/r/a")).total_size = 30 :=
  ⟨rfl, rfl, rfl⟩

lemma foldl_skip_eq_filter (wf : String → Bool) (g : FileStats → String → FileStats) :
    ∀ (l : List String) (acc : FileStats),
      l.foldl (fun a sd => if wf sd then a else g a sd) acc =
        (l.filter (fun sd => !wf sd)).foldl g acc := by
  intro l
  induction l with
  | nil => intro acc; rfl
  | cons x xs ih =>
    intro acc
    by_cases h : wf x = true <;> simp [List.foldl_cons, List.filter_cons, h, ih]

/-- **C6 (amended).** A catastrophically failing worker contributes
nothing to the merged result — no bytes, no files and no error count —
while the remaining workers' aggregates are still all merged: the
parallel result equals the merge of exactly the surviving workers'
walks.  The scan itself is never aborted (the scheduler is a total
function of its inputs). -/
theorem worker_failure_contributes_nothing :
    ∀ (fs : FS) (dir : String) (ex : List String) (md p : Nat) (fl : Bool)
      (sys : List String) (wf : String → Bool),
      topSubdirs fs dir ex sys ≠ [] → 1 < p →
      parallel_scan_directory fs dir ex md p fl sys wf =
        ((topSubdirs fs dir ex sys).filter (fun sd => !wf sd)).foldl
          (fun acc sd => acc.merge (scan_directory fs sd ex md 1 fl sys []).1)
          FileStats.empty := by
  intro fs dir ex md p fl sys wf h1 h2
  rw [parallel_scan_parallel_branch fs dir ex md p fl sys wf h1 h2]
  exact foldl_skip_eq_filter wf _ _ _

/-- Witness for C6 (amended) on a concrete tree with a failing worker. -/
theorem worker_failure_contributes_nothing_witness :
    parallel_scan_directory fs1 "/r" [] 5 3 false [] (fun sd => sd == "/r/a") =
      ((topSubdirs fs1 "/r" [] []).filter (fun sd => !(sd == "/r/a"))).foldl
        (fun acc sd => acc.merge (scan_directory fs1 sd [] 5 1 false [] []).1)
        FileStats.empty :=
  worker_failure_contributes_nothing fs1 "/r" [] 5 3 false [] (fun sd => sd == "/r/a")
    (by decide) (by decide)

/-! ## C10: the loop guard applies to every entry -/

/-- **C10.** The visited-path loop guard is applied to every directory
entry, files included: an entry that is not skipped by the
exclusion/symlink checks and whose resolved path is already in the
visited set is skipped silently — the state (statistics, error count,
subdirectory list, visited set) is returned unchanged — and whenever the
resolved path is new it is inserted into the visited set before the
entry's type is examined or the file is classified, whatever the
outcomes of those later steps. -/
theorem visited_guard_all_entries :
    ∀ (ex sys : List String) (fl : Bool)
      (st : FileStats × List String × List String) (e : Entry) (r : String),
      (e.isDirTop && (ex.contains e.name || is_system_directory e.path sys)) = false →
      (e.isSymlink && !fl) = false →
      e.resolveRes = some r →
      (st.2.2.contains r = true → processEntry ex sys fl st e = st) ∧
      (st.2.2.contains r = false → (processEntry ex sys fl st e).2.2 = r :: st.2.2) := by
  intro ex sys fl st e r h1 h2 h3
  constructor
  · intro hin
    simp only [processEntry, h1, h2, h3, hin, Bool.false_eq_true, if_false, if_true]
  · intro hout
    simp only [processEntry, h1, h2, h3, hout, Bool.false_eq_true, if_false]
    match e.typeRes with
    | none => rfl
    | some .file =>
      match e.statRes with
      | none => rfl
      | some sz => rfl
    | some .dir =>
      by_cases hs : is_system_directory e.path sys = true <;> simp [hs]
    | some .other => rfl

/-- Witness for C10: a regular file resolving to an already-visited path
leaves the walker state untouched. -/
theorem visited_guard_all_entries_witness :
    processEntry [] [] false (FileStats.empty, [], ["/x"])
        { name := "x2", path := "/d/x2", isSymlink := false, isDirTop := false,
          resolveRes := some "/x", typeRes := some .file, statRes := some (9, 1) } =
      (FileStats.empty, [], ["/x"]) :=
  (visited_guard_all_entries [] [] false (FileStats.empty, [], ["/x"])
      { name := "x2", path := "/d/x2", isSymlink := false, isDirTop := false,
        resolveRes := some "/x", typeRes := some .file, statRes := some (9, 1) }
      "/x" rfl rfl rfl).1 rfl

end EfsAnalyzer
